import Mathlib

/-!
Shallow embedding of `src/src/app/services/weather.service.ts` (WeatherAppSIA).

The service is single-threaded async glue over four collaborators: a network
probe, a geolocation provider, an HTTP client and a key-value store.  We model
one call as a pure function of an environment (connectivity, the HTTP
responses, the geolocation reading, the current time, the caller's timezone
offset) and the store contents, returning the call's result together with the
store left behind.  JSON values are a standard inductive; JavaScript numeric
results that can be `NaN` or `±Infinity` (from `Math.max`/`Math.min` on an
empty spread) are modelled by the extended type `JNum`.
-/

/-- JSON values as handled by the service (parsed HTTP bodies, store data). -/
inductive Json where
  | null
  | bool (b : Bool)
  | num (q : ℚ)
  | str (s : String)
  | arr (elems : List Json)
  | obj (fields : List (String × Json))

/-- Property access `v.k` on an object; `none` both for a missing key and for
a primitive receiver (JS yields `undefined` in those cases). -/
def Json.getField : Json → String → Option Json
  | .obj fields, k => (fields.find? (fun p => p.1 == k)).map (·.2)
  | _, _ => none

/-- JavaScript truthiness of a value. -/
def Json.truthy : Json → Bool
  | .null => false
  | .bool b => b
  | .num q => q != 0
  | .str s => s != ""
  | .arr _ => true
  | .obj _ => true

/-- Truthiness of `v.k` (an absent field, i.e. `undefined`, is falsy). -/
def jsTruthyField (v : Json) (k : String) : Bool :=
  match v.getField k with
  | some w => w.truthy
  | none => false

/-- JavaScript numbers as they arise from `Math.max`/`Math.min`/`Math.round`
over possibly-empty or ill-typed data: a rational, or `NaN`, or `±Infinity`. -/
inductive JNum where
  | nan
  | negInf
  | posInf
  | num (q : ℚ)
deriving DecidableEq

/-- `Number(x)` coercion of a field value (`none` is JS `undefined`).
Strings, arrays and objects are coerced to `NaN`; the service only ever feeds
numeric `temp` fields here. -/
def jsToNum : Option Json → JNum
  | none => .nan
  | some .null => .num 0
  | some (.bool b) => .num (if b then 1 else 0)
  | some (.num q) => .num q
  | some (.str _) => .nan
  | some (.arr _) => .nan
  | some (.obj _) => .nan

/-- `Math.round`: round half toward positive infinity, i.e. the floor of
`q + 1/2`, computed as `⌊(2 num + den) / (2 den)⌋` on the reduced fraction;
fixed on non-finite inputs. -/
def jsRound : JNum → JNum
  | .nan => .nan
  | .negInf => .negInf
  | .posInf => .posInf
  | .num q => .num ((Int.ediv (2 * q.num + (q.den : ℤ)) (2 * (q.den : ℤ)) : ℤ) : ℚ)

/-- Binary step of `Math.max` (the larger argument): `NaN` is absorbing. -/
def jnMax : JNum → JNum → JNum
  | .nan, _ => .nan
  | _, .nan => .nan
  | .posInf, _ => .posInf
  | _, .posInf => .posInf
  | .negInf, y => y
  | x, .negInf => x
  | .num a, .num b => .num (if Rat.blt a b then b else a)

/-- Binary step of `Math.min` (the smaller argument): `NaN` is absorbing. -/
def jnMin : JNum → JNum → JNum
  | .nan, _ => .nan
  | _, .nan => .nan
  | .negInf, _ => .negInf
  | _, .negInf => .negInf
  | .posInf, y => y
  | x, .posInf => x
  | .num a, .num b => .num (if Rat.blt a b then a else b)

/-- `Math.max(...xs)`: `-Infinity` on the empty spread. -/
def jsMaxList (xs : List JNum) : JNum := xs.foldl jnMax .negInf

/-- `Math.min(...xs)`: `+Infinity` on the empty spread. -/
def jsMinList (xs : List JNum) : JNum := xs.foldl jnMin .posInf

/-- A `{ latitude, longitude, city? }` object; `city` holds the raw JSON
returned by the reverse-geocoding call, as the source stores it. -/
structure Location where
  latitude : ℚ
  longitude : ℚ
  city : Option Json

/-- A cache record `{ data, timestamp }` written by `fetchDataWithCache`
(`timestamp` in epoch milliseconds). -/
structure CacheEntry where
  data : Json
  timestamp : Int

/-- Values held by the Ionic key-value store: location objects (keys
`currentLocation` / `selectedLocation`) and cache records. -/
inductive StoreVal where
  | loc (l : Location)
  | cache (e : CacheEntry)

/-- The key-value store, modelled as an association list; `get` reads the
most recent binding. -/
structure Store where
  entries : List (String × StoreVal)

/-- `storage.get(key)`: `none` stands for the JS `null`/`undefined` miss. -/
def Store.get (s : Store) (k : String) : Option StoreVal :=
  (s.entries.find? (fun p => p.1 == k)).map (·.2)

/-- `storage.set(key, value)`: replace any previous binding of the key. -/
def Store.set (s : Store) (k : String) (v : StoreVal) : Store :=
  ⟨(k, v) :: s.entries.filter (fun p => p.1 != k)⟩

/-- `storage.clear()`. -/
def Store.clear (_ : Store) : Store := ⟨[]⟩

/-- One call's view of the outside world: connectivity, HTTP responses per
URL, the geolocation reading, `Date.now()` (ms), the caller's timezone offset
(minutes ahead of UTC) and the configured API key. -/
structure Env where
  online : Bool
  http : String → Except String Json
  geo : Except String (ℚ × ℚ)
  now : Int
  tzOffsetMin : Int
  apiKey : String

/-- Decimal rendering of a coordinate in a URL / unrounded cache key
(stands in for JS number-to-string). -/
def ratStr (q : ℚ) : String := toString q

/-- `Number.prototype.toFixed(6)`: six decimal places, ties away from zero. -/
def toFixed6 (q : ℚ) : String :=
  let n : Int :=
    if q ≥ 0 then Rat.floor (q * 1000000 + 1/2)
    else -(Rat.floor (-q * 1000000 + 1/2))
  let a := n.natAbs
  let fracDigits := toString (a % 1000000)
  let padded := String.mk (List.replicate (6 - fracDigits.length) '0') ++ fracDigits
  (if n < 0 then "-" else "") ++ toString (a / 1000000) ++ "." ++ padded

/-- URL of the current-conditions endpoint. -/
def weatherUrl (apiKey : String) (lat lon : ℚ) : String :=
  "https://api.openweathermap.org/data/2.5/weather?lat=" ++ ratStr lat ++
    "&lon=" ++ ratStr lon ++ "&units=metric&appid=" ++ apiKey

/-- URL of the forecast endpoint (shared by weekly and hourly accessors). -/
def forecastUrl (apiKey : String) (lat lon : ℚ) : String :=
  "https://api.openweathermap.org/data/2.5/forecast?lat=" ++ ratStr lat ++
    "&lon=" ++ ratStr lon ++ "&units=metric&appid=" ++ apiKey

/-- Cache key of `getWeatherData`: coordinates via `toFixed(6)`. -/
def weatherCacheKey (lat lon : ℚ) : String :=
  "weather_current_" ++ toFixed6 lat ++ "_" ++ toFixed6 lon

/-- Cache key of `getWeeklyWeather`: unrounded coordinates. -/
def weeklyCacheKey (lat lon : ℚ) : String :=
  "weekly_forecast_" ++ ratStr lat ++ "_" ++ ratStr lon

/-- Cache key of `getHourlyWeather`: coordinates via `toFixed(6)`. -/
def hourlyCacheKey (lat lon : ℚ) : String :=
  "weather_" ++ toFixed6 lat ++ "_" ++ toFixed6 lon

/-- `fetchDataWithCache(endpoint, cacheKey, maxAge)`.  Offline: a stored
cache record whose age is strictly below `maxAge` yields its `data`; any
other stored value has no numeric `timestamp`, so the JS freshness comparison
is false and the same error is thrown.  Online: a successful GET is returned
and written to the store stamped `Date.now()`; a failed GET is mapped to
`Failed to fetch data.`. -/
def fetchDataWithCache (env : Env) (store : Store) (endpoint cacheKey : String)
    (maxAge : Int := 600000) : Except String Json × Store :=
  if env.online then
    match env.http endpoint with
    | .ok data => (.ok data, store.set cacheKey (.cache ⟨data, env.now⟩))
    | .error _ => (.error "Failed to fetch data.", store)
  else
    match store.get cacheKey with
    | some (.cache e) =>
        if env.now - e.timestamp < maxAge then (.ok e.data, store)
        else (.error "No valid cached data available", store)
    | some (.loc _) => (.error "No valid cached data available", store)
    | none => (.error "No valid cached data available", store)

theorem store_get_set (s : Store) (k : String) (v : StoreVal) :
    (s.set k v).get k = some v := by
  simp [Store.get, Store.set, List.find?]

/-- C1: while offline, `fetchDataWithCache` returns the stored record's data
iff a cache record exists under the key and `now - timestamp < maxAge`; in
every other offline case it fails with `No valid cached data available`, and
the store is left untouched (in particular no stale fallback). -/
theorem fetchDataWithCache_offline_spec (env : Env) (store : Store)
    (endpoint cacheKey : String) (maxAge : Int) (hoff : env.online = false) :
    (fetchDataWithCache env store endpoint cacheKey maxAge).2 = store ∧
    (∀ d : Json, (fetchDataWithCache env store endpoint cacheKey maxAge).1 = .ok d ↔
      ∃ e : CacheEntry, store.get cacheKey = some (.cache e) ∧
        env.now - e.timestamp < maxAge ∧ d = e.data) ∧
    ((¬ ∃ e : CacheEntry, store.get cacheKey = some (.cache e) ∧
        env.now - e.timestamp < maxAge) →
      (fetchDataWithCache env store endpoint cacheKey maxAge).1 =
        .error "No valid cached data available") := by
  unfold fetchDataWithCache
  rw [hoff]
  simp only [Bool.false_eq_true, if_false]
  cases hget : store.get cacheKey with
  | none =>
      dsimp only
      refine ⟨rfl, ?_, fun _ => rfl⟩
      intro d
      constructor
      · intro h; cases h
      · rintro ⟨e, he, -, -⟩; cases he
  | some v =>
      cases v with
      | loc l =>
          dsimp only
          refine ⟨rfl, ?_, fun _ => rfl⟩
          intro d
          constructor
          · intro h; cases h
          · rintro ⟨e, he, -, -⟩; cases he
      | cache e =>
          dsimp only
          by_cases hfresh : env.now - e.timestamp < maxAge
          · rw [if_pos hfresh]
            refine ⟨rfl, ?_, ?_⟩
            · intro d
              constructor
              · intro h
                cases h
                exact ⟨e, rfl, hfresh, rfl⟩
              · rintro ⟨e', he', -, hd⟩
                cases he'
                rw [hd]
            · intro hno
              exact absurd ⟨e, rfl, hfresh⟩ hno
          · rw [if_neg hfresh]
            refine ⟨rfl, ?_, fun _ => rfl⟩
            intro d
            constructor
            · intro h; cases h
            · rintro ⟨e', he', hf, -⟩
              cases he'
              exact absurd hf hfresh

/-- Concrete offline environment used by witnesses. -/
def envOffline : Env :=
  { online := false
    http := fun _ => .error "unreachable"
    geo := .error "unreachable"
    now := 1000000
    tzOffsetMin := 0
    apiKey := "k" }

/-- A store holding one fresh cache record under key `k`. -/
def storeFresh : Store := ⟨[("k", .cache ⟨.num 7, 999000⟩)]⟩

theorem fetchDataWithCache_offline_spec_witness :
    (fetchDataWithCache envOffline storeFresh "ep" "k" 600000).2 = storeFresh ∧
    (fetchDataWithCache envOffline storeFresh "ep" "k" 600000).1 = .ok (.num 7) := by
  have h := fetchDataWithCache_offline_spec envOffline storeFresh "ep" "k" 600000 rfl
  refine ⟨h.1, ?_⟩
  exact (h.2.1 (.num 7)).2 ⟨⟨.num 7, 999000⟩, rfl, by decide, rfl⟩

/-- C2: while online with a successful GET returning `d`, the call returns
`d` and the store afterwards binds the cache key to a record carrying `d`
with timestamp `Date.now()` of the call, hence no later than completion. -/
theorem fetchDataWithCache_online_success (env : Env) (store : Store)
    (endpoint cacheKey : String) (maxAge : Int) (d : Json)
    (hon : env.online = true) (hhttp : env.http endpoint = .ok d) :
    (fetchDataWithCache env store endpoint cacheKey maxAge).1 = .ok d ∧
    ∃ e : CacheEntry,
      (fetchDataWithCache env store endpoint cacheKey maxAge).2.get cacheKey =
        some (.cache e) ∧ e.data = d ∧ e.timestamp ≤ env.now := by
  unfold fetchDataWithCache
  rw [hon, if_pos rfl, hhttp]
  exact ⟨rfl, ⟨d, env.now⟩, store_get_set store cacheKey _, rfl, le_refl _⟩

/-- Concrete online environment answering every GET with the number 5. -/
def envOnline5 : Env :=
  { online := true
    http := fun _ => .ok (.num 5)
    geo := .error "unreachable"
    now := 2000
    tzOffsetMin := 0
    apiKey := "k" }

theorem fetchDataWithCache_online_success_witness :
    (fetchDataWithCache envOnline5 ⟨[]⟩ "ep" "k" 600000).1 = .ok (.num 5) ∧
    ∃ e : CacheEntry,
      (fetchDataWithCache envOnline5 ⟨[]⟩ "ep" "k" 600000).2.get "k" =
        some (.cache e) ∧ e.data = .num 5 ∧ e.timestamp ≤ (2000 : Int) :=
  fetchDataWithCache_online_success envOnline5 ⟨[]⟩ "ep" "k" 600000 (.num 5) rfl rfl

/-- `getCityName(lat, lon)`: one GET against the reverse-geocoding endpoint;
any HTTP failure is mapped to `Failed to get city name.`. -/
def getCityName (env : Env) (lat lon : ℚ) : Except String Json :=
  match env.http ("https://nominatim.openstreetmap.org/reverse?format=json&lat=" ++
      ratStr lat ++ "&lon=" ++ ratStr lon) with
  | .ok j => .ok j
  | .error _ => .error "Failed to get city name."

/-- `getCurrentLocation()`.  Result, store afterwards, and whether the
geolocation provider was contacted.  Offline: return whatever the store holds
under `currentLocation`, or fail; the store is not touched.  Online: read the
device position, reverse-geocode it (the whole JSON response becomes `city`),
persist the location under `currentLocation` and return it; failures of
either collaborator are alerted and rethrown unchanged. -/
def getCurrentLocation (env : Env) (store : Store) :
    Except String StoreVal × Store × Bool :=
  if env.online then
    match env.geo with
    | .error e => (.error e, store, true)
    | .ok (lat, lon) =>
        match getCityName env lat lon with
        | .error e => (.error e, store, true)
        | .ok cityJson =>
            let location : Location := ⟨lat, lon, some cityJson⟩
            (.ok (.loc location), store.set "currentLocation" (.loc location), true)
  else
    match store.get "currentLocation" with
    | some v => (.ok v, store, false)
    | none => (.error "No cached location available while offline.", store, false)

/-- C3: a Location persisted under `currentLocation` is returned exactly by
an offline `getCurrentLocation()` call, which neither contacts the
geolocation provider nor modifies the store. -/
theorem getCurrentLocation_offline_cached (env : Env) (store : Store)
    (L : Location) (hoff : env.online = false)
    (hcache : store.get "currentLocation" = some (.loc L)) :
    getCurrentLocation env store = (.ok (.loc L), store, false) := by
  unfold getCurrentLocation
  rw [hoff]
  simp only [Bool.false_eq_true, if_false]
  rw [hcache]

/-- A store holding a location under `currentLocation`. -/
def storeWithLoc : Store := ⟨[("currentLocation", .loc ⟨10, 20, none⟩)]⟩

theorem getCurrentLocation_offline_cached_witness :
    getCurrentLocation envOffline storeWithLoc =
      (.ok (.loc ⟨10, 20, none⟩), storeWithLoc, false) :=
  getCurrentLocation_offline_cached envOffline storeWithLoc ⟨10, 20, none⟩ rfl rfl

/-- `clearCache()`. -/
def clearCache (s : Store) : Store := s.clear

/-- C7: after `clearCache()` the store binds no key at all, every offline
`fetchDataWithCache` read fails with `No valid cached data available`
whatever the prior store held, and an offline `getCurrentLocation()` fails
with `No cached location available while offline.`. -/
theorem clearCache_spec (env : Env) (s : Store) (hoff : env.online = false) :
    (∀ k : String, (clearCache s).get k = none) ∧
    (∀ endpoint cacheKey : String, ∀ maxAge : Int,
      (fetchDataWithCache env (clearCache s) endpoint cacheKey maxAge).1 =
        .error "No valid cached data available") ∧
    (getCurrentLocation env (clearCache s)).1 =
      .error "No cached location available while offline." := by
  refine ⟨fun k => rfl, fun endpoint cacheKey maxAge => ?_, ?_⟩
  · unfold fetchDataWithCache
    rw [hoff]
    rfl
  · unfold getCurrentLocation
    rw [hoff]
    rfl

theorem clearCache_spec_witness :
    ((clearCache storeFresh).get "k" = none) ∧
    (fetchDataWithCache envOffline (clearCache storeFresh) "ep" "k" 600000).1 =
      .error "No valid cached data available" ∧
    (getCurrentLocation envOffline (clearCache storeWithLoc)).1 =
      .error "No cached location available while offline." := by
  have h1 := clearCache_spec envOffline storeFresh rfl
  have h2 := clearCache_spec envOffline storeWithLoc rfl
  exact ⟨h1.1 "k", h1.2.1 "ep" "k" 600000, h2.2.2⟩

/-- Two-digit zero-padded minute component. -/
def pad2 (n : Nat) : String :=
  if n < 10 then "0" ++ toString n else toString n

/-- 12-hour rendering of a wall-clock hour/minute pair, `h:mm AM|PM`. -/
def format12h (h24 mm : Nat) : String :=
  (if h24 % 12 = 0 then toString 12 else toString (h24 % 12)) ++ ":" ++ pad2 mm ++
    (if h24 < 12 then " AM" else " PM")

/-- `new Date(t * 1000).toLocaleTimeString('en-US', { hour: 'numeric',
minute: '2-digit', hour12: true })`: the wall-clock time of epoch second `t`
in the caller's timezone, on a 12-hour clock.  Non-finite inputs give an
invalid date. -/
def convertUnixToLocalTime (tzOffsetMin : Int) (t : JNum) : String :=
  match t with
  | .num q =>
      let mday : Nat :=
        (Int.emod (Int.ediv q.num (60 * (q.den : ℤ)) + tzOffsetMin) 1440).toNat
      format12h (mday / 60) (mday % 60)
  | .nan => "Invalid Date"
  | .negInf => "Invalid Date"
  | .posInf => "Invalid Date"

/-- A string of the shape `h:mm AM` or `h:mm PM` with `1 ≤ h ≤ 12` and
`mm ≤ 59`: a 12-hour clock time. -/
def Is12HourTimeString (s : String) : Prop :=
  ∃ h m : Nat, 1 ≤ h ∧ h ≤ 12 ∧ m ≤ 59 ∧
    (s = toString h ++ ":" ++ pad2 m ++ " AM" ∨
     s = toString h ++ ":" ++ pad2 m ++ " PM")

theorem format12h_is12Hour (h24 mm : Nat) (hmm : mm < 60) :
    Is12HourTimeString (format12h h24 mm) := by
  unfold format12h
  by_cases h0 : h24 % 12 = 0
  · refine ⟨12, mm, by omega, by omega, by omega, ?_⟩
    rw [if_pos h0]
    by_cases hap : h24 < 12
    · exact Or.inl (by rw [if_pos hap])
    · exact Or.inr (by rw [if_neg hap])
  · have hlt : h24 % 12 < 12 := Nat.mod_lt h24 (by norm_num)
    refine ⟨h24 % 12, mm, by omega, by omega, by omega, ?_⟩
    rw [if_neg h0]
    by_cases hap : h24 < 12
    · exact Or.inl (by rw [if_pos hap])
    · exact Or.inr (by rw [if_neg hap])

theorem convertUnixToLocalTime_is12Hour (tz : Int) (q : ℚ) :
    Is12HourTimeString (convertUnixToLocalTime tz (.num q)) := by
  unfold convertUnixToLocalTime
  exact format12h_is12Hour _ _ (Nat.mod_lt _ (by norm_num))

/-- `data.sys || {}` followed by destructuring of field `k`: the field of a
truthy `sys`, else `undefined`. -/
def sysTimeField (data : Json) (k : String) : Option Json :=
  match data.getField "sys" with
  | some s => if s.truthy then s.getField k else none
  | none => none

/-- `v ? convertUnixToLocalTime(v) : null` for a destructured timestamp. -/
def sunFieldVal (tz : Int) (v : Option Json) : Json :=
  match v with
  | some w => if w.truthy then .str (convertUnixToLocalTime tz (jsToNum (some w))) else .null
  | none => .null

/-- In-place update used to model the object spread with override. -/
def setField : List (String × Json) → String → Json → List (String × Json)
  | [], k, v => [(k, v)]
  | (k', v') :: rest, k, v =>
      if k' == k then (k', v) :: rest else (k', v') :: setField rest k v

/-- `{ ...data, sunrise: sr, sunset: ss }`. -/
def jsSpreadSun (data : Json) (sr ss : Json) : Json :=
  match data with
  | .obj fields => .obj (setField (setField fields "sunrise" sr) "sunset" ss)
  | _ => .obj [("sunrise", sr), ("sunset", ss)]

/-- The `map` stage of `getWeatherData`: if `data?.main` is truthy, replace
`sunrise`/`sunset` with localized strings (or `null` when absent/falsy),
spreading the rest of the object; otherwise return `data` unchanged. -/
def postProcessWeather (tz : Int) (data : Json) : Json :=
  if jsTruthyField data "main" then
    jsSpreadSun data (sunFieldVal tz (sysTimeField data "sunrise"))
      (sunFieldVal tz (sysTimeField data "sunset"))
  else data

/-- `getWeatherData(lat, lon)`: cache-aware fetch of the current-conditions
endpoint, the post-processing `map`, and the `catchError` that maps every
failure to `Failed to fetch weather data.`. -/
def getWeatherData (env : Env) (store : Store) (lat lon : ℚ) :
    Except String Json × Store :=
  let r := fetchDataWithCache env store (weatherUrl env.apiKey lat lon)
    (weatherCacheKey lat lon) 600000
  match r.1 with
  | .ok data => (.ok (postProcessWeather env.tzOffsetMin data), r.2)
  | .error _ => (.error "Failed to fetch weather data.", r.2)

/-- `getVisibilityData(lat, lon)`: delegates to `getWeatherData`. -/
def getVisibilityData (env : Env) (store : Store) (lat lon : ℚ) :
    Except String Json × Store :=
  getWeatherData env store lat lon

theorem setField_find_self (fs : List (String × Json)) (k : String) (v : Json) :
    ((setField fs k v).find? (fun p => p.1 == k)).map (·.2) = some v := by
  induction fs with
  | nil => simp [setField, List.find?]
  | cons hd tl ih =>
      obtain ⟨k', v'⟩ := hd
      by_cases h : k' == k
      · simp [setField, h, List.find?]
      · simp only [setField, h, if_false, Bool.false_eq_true]
        rw [List.find?]
        simp only [h]
        exact ih

theorem setField_find_other (fs : List (String × Json)) (k : String) (v : Json)
    (k2 : String) (hne : (k2 == k) = false) :
    ((setField fs k v).find? (fun p => p.1 == k2)).map (·.2) =
      (fs.find? (fun p => p.1 == k2)).map (·.2) := by
  induction fs with
  | nil =>
      simp only [setField, List.find?]
      have hkk2 : (k == k2) = false := by
        rw [beq_eq_false_iff_ne] at hne ⊢
        exact fun h => hne h.symm
      simp [hkk2]
  | cons hd tl ih =>
      obtain ⟨k', v'⟩ := hd
      by_cases h : k' == k
      · have hk2 : (k' == k2) = false := by
          rw [beq_iff_eq] at h
          subst h
          cases h2 : k' == k2
          · rfl
          · rw [beq_iff_eq] at h2; subst h2; simp at hne
        simp [setField, h, List.find?, hk2]
      · simp only [setField, h, if_false, Bool.false_eq_true]
        rw [List.find?, List.find?]
        cases h2 : k' == k2
        · exact ih
        · rfl

theorem jsSpreadSun_sunrise (D sr ss : Json) :
    (jsSpreadSun D sr ss).getField "sunrise" = some sr := by
  cases D <;> simp only [jsSpreadSun, Json.getField]
  case obj fields =>
    rw [setField_find_other _ _ _ _ (by decide)]
    exact setField_find_self fields "sunrise" sr
  all_goals simp [List.find?]

theorem jsSpreadSun_sunset (D sr ss : Json) :
    (jsSpreadSun D sr ss).getField "sunset" = some ss := by
  cases D <;> simp only [jsSpreadSun, Json.getField]
  case obj fields =>
    exact setField_find_self _ "sunset" ss
  all_goals simp [List.find?]

theorem jsSpreadSun_other (D sr ss : Json) (k : String)
    (h1 : k ≠ "sunrise") (h2 : k ≠ "sunset") :
    (jsSpreadSun D sr ss).getField k = D.getField k := by
  have b1 : (k == "sunrise") = false := beq_eq_false_iff_ne.mpr h1
  have b2 : (k == "sunset") = false := beq_eq_false_iff_ne.mpr h2
  have c1 : ("sunrise" == k) = false := beq_eq_false_iff_ne.mpr (Ne.symm h1)
  have c2 : ("sunset" == k) = false := beq_eq_false_iff_ne.mpr (Ne.symm h2)
  cases D <;> simp only [jsSpreadSun, Json.getField]
  case obj fields =>
    rw [setField_find_other _ _ _ _ b2, setField_find_other _ _ _ _ b1]
  all_goals simp [List.find?, c1, c2]

theorem postProcessWeather_main (tz : Int) (D : Json)
    (hmain : jsTruthyField D "main" = true) :
    postProcessWeather tz D =
      jsSpreadSun D (sunFieldVal tz (sysTimeField D "sunrise"))
        (sunFieldVal tz (sysTimeField D "sunset")) := by
  unfold postProcessWeather
  rw [hmain]
  rfl

/-- C8: `getVisibilityData` is extensionally equal to `getWeatherData`: same
result and same store effects on every environment, store and coordinates. -/
theorem getVisibilityData_eq_getWeatherData (env : Env) (store : Store)
    (lat lon : ℚ) :
    getVisibilityData env store lat lon = getWeatherData env store lat lon :=
  rfl

/-- C10: a successful `getWeatherData` fetch whose response has no `main`
field is returned completely unchanged: no `sunrise`/`sunset` fields are
added or nulled. -/
theorem getWeatherData_no_main (env : Env) (store : Store) (lat lon : ℚ)
    (D : Json) (hon : env.online = true)
    (hhttp : env.http (weatherUrl env.apiKey lat lon) = .ok D)
    (hmain : D.getField "main" = none) :
    (getWeatherData env store lat lon).1 = .ok D := by
  unfold getWeatherData fetchDataWithCache
  rw [hon, if_pos rfl, hhttp]
  dsimp only
  unfold postProcessWeather jsTruthyField
  rw [hmain]
  rfl

/-- A current-conditions response with a `sys` block but no `main` field. -/
def dataNoMain : Json := .obj [("sys", .obj [("sunrise", .num 1700000000)])]

/-- Online environment whose weather endpoint answers `dataNoMain`. -/
def envNoMain : Env :=
  { online := true
    http := fun _ => .ok dataNoMain
    geo := .error "unreachable"
    now := 0
    tzOffsetMin := 0
    apiKey := "k" }

theorem getWeatherData_no_main_witness :
    (getWeatherData envNoMain ⟨[]⟩ 0 0).1 = .ok dataNoMain :=
  getWeatherData_no_main envNoMain ⟨[]⟩ 0 0 dataNoMain rfl rfl rfl

/-- C6 counterexample: a successful response that does contain
`sys.sunrise = 1700000000` but lacks `main` is passed through unchanged, so
the returned object has no `sunrise` field at all — not a non-null 12-hour
time string, and its `sunset` is not `null` either. -/
theorem getWeatherData_sunrise_cex :
    (dataNoMain.getField "sys").bind (fun s => s.getField "sunrise") =
      some (.num 1700000000) ∧
    (getWeatherData envNoMain ⟨[]⟩ 0 0).1 = .ok dataNoMain ∧
    dataNoMain.getField "sunrise" = none ∧
    dataNoMain.getField "sunset" = none := by
  refine ⟨rfl, ?_, rfl, rfl⟩
  rfl

/-- C6 (amended to responses whose `main` field is present and truthy): a
successful `getWeatherData` fetch with truthy `main` returns an object in
which `sunrise` is the localized 12-hour string of `sys.sunrise` when that
timestamp is `1700000000`, in which `sunrise` and `sunset` are `null` when
the response has no `sys` field, and in which every other field equals the
response's. -/
theorem getWeatherData_postprocess_spec (env : Env) (store : Store)
    (lat lon : ℚ) (D : Json) (hon : env.online = true)
    (hhttp : env.http (weatherUrl env.apiKey lat lon) = .ok D)
    (hmain : jsTruthyField D "main" = true) :
    ∃ r : Json, (getWeatherData env store lat lon).1 = .ok r ∧
      (sysTimeField D "sunrise" = some (.num 1700000000) →
        r.getField "sunrise" =
          some (.str (convertUnixToLocalTime env.tzOffsetMin (.num 1700000000))) ∧
        Is12HourTimeString (convertUnixToLocalTime env.tzOffsetMin (.num 1700000000))) ∧
      (D.getField "sys" = none →
        r.getField "sunrise" = some .null ∧ r.getField "sunset" = some .null) ∧
      (∀ k : String, k ≠ "sunrise" → k ≠ "sunset" →
        r.getField k = D.getField k) := by
  have hres : (getWeatherData env store lat lon).1 =
      .ok (postProcessWeather env.tzOffsetMin D) := by
    unfold getWeatherData fetchDataWithCache
    rw [hon, if_pos rfl, hhttp]
  rw [postProcessWeather_main env.tzOffsetMin D hmain] at hres
  refine ⟨_, hres, ?_, ?_, ?_⟩
  · intro hsr
    rw [hsr]
    constructor
    · rw [jsSpreadSun_sunrise]
      rfl
    · exact convertUnixToLocalTime_is12Hour env.tzOffsetMin 1700000000
  · intro hsys
    unfold sysTimeField
    rw [hsys]
    exact ⟨jsSpreadSun_sunrise D _ _, jsSpreadSun_sunset D _ _⟩
  · intro k hk1 hk2
    exact jsSpreadSun_other D _ _ k hk1 hk2

/-- A response with truthy `main` and `sys.sunrise = 1700000000`. -/
def dataWithMain : Json :=
  .obj [("main", .obj [("temp", .num 20)]),
        ("sys", .obj [("sunrise", .num 1700000000)])]

/-- Online environment whose weather endpoint answers `dataWithMain`. -/
def envWithMain : Env :=
  { online := true
    http := fun _ => .ok dataWithMain
    geo := .error "unreachable"
    now := 0
    tzOffsetMin := 0
    apiKey := "k" }

theorem getWeatherData_postprocess_spec_witness :
    ∃ r : Json, (getWeatherData envWithMain ⟨[]⟩ 0 0).1 = .ok r ∧
      r.getField "sunrise" =
        some (.str (convertUnixToLocalTime 0 (.num 1700000000))) ∧
      Is12HourTimeString (convertUnixToLocalTime 0 (.num 1700000000)) ∧
      r.getField "main" = dataWithMain.getField "main" := by
  obtain ⟨r, h1, h2, h3, h4⟩ :=
    getWeatherData_postprocess_spec envWithMain ⟨[]⟩ 0 0 dataWithMain rfl rfl rfl
  obtain ⟨hsr, h12⟩ := h2 rfl
  exact ⟨r, h1, hsr, h12, h4 "main" (by decide) (by decide)⟩

/-- `getWeeklyWeather(lat, lon)`: forecast endpoint, unrounded cache key. -/
def getWeeklyWeather (env : Env) (store : Store) (lat lon : ℚ) :
    Except String Json × Store :=
  fetchDataWithCache env store (forecastUrl env.apiKey lat lon)
    (weeklyCacheKey lat lon) 600000

/-- `getHourlyWeather(lat, lon)`: same forecast endpoint, rounded cache key. -/
def getHourlyWeather (env : Env) (store : Store) (lat lon : ℚ) :
    Except String Json × Store :=
  fetchDataWithCache env store (forecastUrl env.apiKey lat lon)
    (hourlyCacheKey lat lon) 600000

/-- `entry.main.temp` for one forecast entry; `none` models the TypeError
thrown when the property chain hits `null`/`undefined` before `temp`. -/
def entryTemp (entry : Json) : Option JNum :=
  match entry with
  | .null => none
  | _ =>
      match entry.getField "main" with
      | none => none
      | some .null => none
      | some m => some (jsToNum (m.getField "temp"))

/-- `getHighLowTemperature(lat, lon)`: weekly fetch, then rounded
`Math.max`/`Math.min` over every entry's `main.temp`.  The trailing
`catchError` wraps every error raised upstream — the fetcher's failures and
the `Forecast data is invalid.` error thrown inside the `map` alike — into
`Failed to fetch high/low temperatures: ` + the stringified error. -/
def getHighLowTemperature (env : Env) (store : Store) (lat lon : ℚ) :
    Except String (JNum × JNum) × Store :=
  let r := getWeeklyWeather env store lat lon
  match r.1 with
  | .error e =>
      (.error ("Failed to fetch high/low temperatures: Error: " ++ e), r.2)
  | .ok data =>
      if data.truthy && jsTruthyField data "list" then
        match data.getField "list" with
        | some (.arr entries) =>
            match entries.mapM entryTemp with
            | some temps =>
                (.ok (jsRound (jsMaxList temps), jsRound (jsMinList temps)), r.2)
            | none =>
                (.error "Failed to fetch high/low temperatures: TypeError", r.2)
        | _ =>
            (.error
              "Failed to fetch high/low temperatures: Error: Forecast data is invalid.",
              r.2)
      else
        (.error
          "Failed to fetch high/low temperatures: Error: Forecast data is invalid.",
          r.2)

/-- The forecast body `{list: [{main:{temp:3.2}}, {main:{temp:-1.7}},
{main:{temp:10.0}}]}`. -/
def forecastThree : Json :=
  .obj [("list", .arr
    [.obj [("main", .obj [("temp", .num ⟨16, 5, by decide, by decide⟩)])],
     .obj [("main", .obj [("temp", .num ⟨-17, 10, by decide, by decide⟩)])],
     .obj [("main", .obj [("temp", .num 10)])]])]

/-- C4: on the forecast list `[3.2, -1.7, 10.0]` a successful
`getHighLowTemperature` call returns high `10` and low `-2`, the rounded
maximum and minimum of the entries' `main.temp` fields. -/
theorem getHighLowTemperature_three (env : Env) (store : Store) (lat lon : ℚ)
    (hon : env.online = true)
    (hhttp : env.http (forecastUrl env.apiKey lat lon) = .ok forecastThree) :
    (getHighLowTemperature env store lat lon).1 = .ok (.num 10, .num (-2)) := by
  unfold getHighLowTemperature getWeeklyWeather fetchDataWithCache
  rw [hon, if_pos rfl, hhttp]
  rfl

/-- Online environment whose forecast endpoint answers `forecastThree`. -/
def envForecastThree : Env :=
  { online := true
    http := fun _ => .ok forecastThree
    geo := .error "unreachable"
    now := 0
    tzOffsetMin := 0
    apiKey := "k" }

theorem getHighLowTemperature_three_witness :
    (getHighLowTemperature envForecastThree ⟨[]⟩ 0 0).1 =
      .ok (.num 10, .num (-2)) :=
  getHighLowTemperature_three envForecastThree ⟨[]⟩ 0 0 rfl rfl

/-- Online environment whose forecast endpoint answers `{}` (no `list`). -/
def envEmptyObj : Env :=
  { online := true
    http := fun _ => .ok (.obj [])
    geo := .error "unreachable"
    now := 0
    tzOffsetMin := 0
    apiKey := "k" }

/-- C5 counterexample: when the list structure is absent the surfaced error
is the wrapped `Failed to fetch high/low temperatures: Error: Forecast data
is invalid.`, not the bare `Forecast data is invalid.` the claim names — the
trailing `catchError` wraps the internally thrown error too. -/
theorem getHighLowTemperature_invalid_cex :
    (getHighLowTemperature envEmptyObj ⟨[]⟩ 0 0).1 =
      .error "Failed to fetch high/low temperatures: Error: Forecast data is invalid." ∧
    (getHighLowTemperature envEmptyObj ⟨[]⟩ 0 0).1 ≠
      .error "Forecast data is invalid." := by
  refine ⟨rfl, fun h => ?_⟩
  rw [show (getHighLowTemperature envEmptyObj ⟨[]⟩ 0 0).1 =
    .error "Failed to fetch high/low temperatures: Error: Forecast data is invalid."
    from rfl] at h
  exact absurd (Except.error.inj h) (by decide)

/-- C5 (amended: the invalid-structure error is itself wrapped): when the
response lacks a `list` array the call fails with
`Failed to fetch high/low temperatures: Error: Forecast data is invalid.`
(the internally thrown `Forecast data is invalid.`, wrapped), and when the
underlying fetcher fails the call fails with
`Failed to fetch high/low temperatures: Error: Failed to fetch data.`
(the fetcher's error, wrapped). -/
theorem getHighLowTemperature_error_spec (env : Env) (store : Store)
    (lat lon : ℚ) (D : Json) (hon : env.online = true) :
    (env.http (forecastUrl env.apiKey lat lon) = .ok D →
      (∀ es : List Json, D.getField "list" ≠ some (.arr es)) →
      (getHighLowTemperature env store lat lon).1 =
        .error "Failed to fetch high/low temperatures: Error: Forecast data is invalid.") ∧
    (∀ msg : String, env.http (forecastUrl env.apiKey lat lon) = .error msg →
      (getHighLowTemperature env store lat lon).1 =
        .error "Failed to fetch high/low temperatures: Error: Failed to fetch data.") := by
  constructor
  · intro hhttp hbad
    unfold getHighLowTemperature getWeeklyWeather fetchDataWithCache
    rw [hon, if_pos rfl, hhttp]
    dsimp only
    by_cases hc : (D.truthy && jsTruthyField D "list") = true
    · rw [if_pos hc]
      cases hl : D.getField "list" with
      | none => rfl
      | some v =>
          cases v with
          | arr es => exact absurd hl (hbad es)
          | null => rfl
          | bool b => rfl
          | num q => rfl
          | str s => rfl
          | obj fs => rfl
    · rw [if_neg hc]
  · intro msg hhttp
    unfold getHighLowTemperature getWeeklyWeather fetchDataWithCache
    rw [hon, if_pos rfl, hhttp]
    rfl

/-- Online environment whose forecast endpoint fails. -/
def envHttpFail : Env :=
  { online := true
    http := fun _ => .error "boom"
    geo := .error "unreachable"
    now := 0
    tzOffsetMin := 0
    apiKey := "k" }

theorem getHighLowTemperature_error_spec_witness :
    (getHighLowTemperature envEmptyObj ⟨[]⟩ 0 0).1 =
      .error "Failed to fetch high/low temperatures: Error: Forecast data is invalid." ∧
    (getHighLowTemperature envHttpFail ⟨[]⟩ 0 0).1 =
      .error "Failed to fetch high/low temperatures: Error: Failed to fetch data." := by
  constructor
  · exact (getHighLowTemperature_error_spec envEmptyObj ⟨[]⟩ 0 0 (.obj []) rfl).1
      rfl (fun es h => by cases h)
  · exact (getHighLowTemperature_error_spec envHttpFail ⟨[]⟩ 0 0 .null rfl).2
      "boom" rfl

/-- C9: a successful weekly response whose `list` is the empty array does not
take the invalid-data branch (an empty array is truthy): the call succeeds
with high `-Infinity` and low `+Infinity`, the rounded `Math.max`/`Math.min`
of an empty spread. -/
theorem getHighLowTemperature_emptyList (env : Env) (store : Store)
    (lat lon : ℚ) (fs : List (String × Json)) (hon : env.online = true)
    (hhttp : env.http (forecastUrl env.apiKey lat lon) = .ok (.obj fs))
    (hlist : (Json.obj fs).getField "list" = some (.arr [])) :
    (getHighLowTemperature env store lat lon).1 = .ok (.negInf, .posInf) := by
  unfold getHighLowTemperature getWeeklyWeather fetchDataWithCache
  rw [hon, if_pos rfl, hhttp]
  dsimp only
  have hc : ((Json.obj fs).truthy && jsTruthyField (Json.obj fs) "list") = true := by
    unfold jsTruthyField
    rw [hlist]
    rfl
  rw [if_pos hc, hlist]
  rfl

/-- Online environment whose forecast endpoint answers `{list: []}`. -/
def envEmptyList : Env :=
  { online := true
    http := fun _ => .ok (.obj [("list", .arr [])])
    geo := .error "unreachable"
    now := 0
    tzOffsetMin := 0
    apiKey := "k" }

theorem getHighLowTemperature_emptyList_witness :
    (getHighLowTemperature envEmptyList ⟨[]⟩ 0 0).1 = .ok (.negInf, .posInf) :=
  getHighLowTemperature_emptyList envEmptyList ⟨[]⟩ 0 0
    [("list", .arr [])] rfl rfl rfl
